import Mathlib

/-!
Shallow embedding of `src/handle.rs` from the `pcp-rs` repository: the
session-handle side of the PCP client engine. Channels are modelled by an
explicit state (pending queue plus liveness of the two endpoints), matching
the semantics of `std::sync::mpsc`: `send` fails exactly when the receiver
is gone, `recv` yields a value when one is queued, fails when the queue is
empty and every sender is gone, and blocks otherwise; `try_recv` never
blocks. A Rust panic (an `unwrap` on an `Err`) is modelled by the explicit
outcome `panicked`. Blocking operations are modelled by an `Option` of the
outcome: `none` means the call has not completed (it is blocked).
-/

namespace Pcp

/-- Stand-in for `std::io::Error`, opaque to this layer (only carried). -/
structure IoError where
  code : Nat
  deriving DecidableEq, Repr

/-- `std::sync::mpsc::RecvError`: a unit struct signalling a severed channel. -/
inductive RecvError
  | mk
  deriving DecidableEq, Repr

/-- Stand-in for `crate::types::ParsingError` (not under `src/`), opaque to
this layer (only carried). -/
structure ParsingError where
  code : Nat
  deriving DecidableEq, Repr

/-- `Error` from `handle.rs`: errors generated by PCP operations. -/
inductive Error
  | Socket (e : IoError)
  | Channel (e : RecvError)
  | Parsing (e : ParsingError)
  deriving DecidableEq, Repr

/-- `impl From<RecvError> for Error` from `handle.rs`. -/
def Error.fromRecvError (e : RecvError) : Error := Error.Channel e

/-- Modelled from the spec: `state.rs` is not under `src/`; the spec fixes
only the `Requested` state (set at creation) plus worker-defined follow-on
states, which are opaque here. -/
inductive State
  | Requested
  | workerDefined (n : Nat)
  deriving DecidableEq, Repr

/-- An `Arc<AtomicState>` cell: identified by an allocation id (so that
sharing between the event sent to the worker and the returned mapping
handle is expressible) together with its current value. -/
structure StateCell where
  cellId : Nat
  val : State
  deriving DecidableEq, Repr

/-- `RequestType` from `handle.rs`. -/
inductive RequestType
  | Once
  | Repeat (n : Nat)
  | KeepAlive
  deriving DecidableEq, Repr

/-- Modelled from the spec: inbound mapping descriptor (`map.rs` is not
under `src/`); its payload is opaque to this layer. -/
structure InboundMap where
  payload : Nat
  deriving DecidableEq, Repr

/-- Modelled from the spec: outbound mapping descriptor (`map.rs` is not
under `src/`); its payload is opaque to this layer. -/
structure OutboundMap where
  payload : Nat
  deriving DecidableEq, Repr

/-- Modelled from the spec: `Event` (`event.rs` is not under `src/`) has
variants `InboundMap(descriptor, kind, state-cell, reply-channel,
alert-channel)`, `OutboundMap` of the same shape, and `Shutdown`. Channels
are named by allocation ids. -/
inductive Event
  | InboundMap (map : InboundMap) (kind : RequestType) (state : StateCell)
      (idTx : Nat) (alertTx : Nat)
  | OutboundMap (map : OutboundMap) (kind : RequestType) (state : StateCell)
      (idTx : Nat) (alertTx : Nat)
  | Shutdown
  deriving DecidableEq, Repr

/-- State of one `mpsc` channel: the queue of sent-but-unreceived values,
and whether each side is still alive. -/
structure Channel (α : Type) where
  queue : List α
  senderAlive : Bool
  receiverAlive : Bool
  deriving DecidableEq, Repr

/-- `std::sync::mpsc::TryRecvError`. -/
inductive TryRecvError
  | Empty
  | Disconnected
  deriving DecidableEq, Repr

/-- `std::sync::mpsc::SendError`: returns the unsent value. -/
structure SendError (α : Type) where
  val : α
  deriving DecidableEq, Repr

/-- `Sender::send`: enqueues when the receiver is alive, otherwise fails
returning the value; never blocks. -/
def Channel.send (c : Channel α) (a : α) : Option (SendError α) × Channel α :=
  if c.receiverAlive then (none, { c with queue := c.queue ++ [a] })
  else (some ⟨a⟩, c)

/-- `Receiver::try_recv`: dequeues the head when present; on an empty queue
fails with `Empty` while a sender is alive and `Disconnected` otherwise;
never blocks. -/
def Channel.tryRecv (c : Channel α) : Except TryRecvError α × Channel α :=
  match c.queue with
  | a :: rest => (Except.ok a, { c with queue := rest })
  | [] =>
    (Except.error (if c.senderAlive then TryRecvError.Empty
                   else TryRecvError.Disconnected), c)

/-- `Receiver::recv`: dequeues the head when present; on an empty queue
fails with `RecvError` when every sender is gone; otherwise blocks (`none`:
no outcome yet). -/
def Channel.recvOutcome (c : Channel α) :
    Option (Except RecvError α × Channel α) :=
  match c.queue with
  | a :: rest => some (Except.ok a, { c with queue := rest })
  | [] =>
    if c.senderAlive then none
    else some (Except.error RecvError.mk, c)

/-- `Handle` from `handle.rs`: owns the event sender (`to_client`) and the
error-channel receiver (`from_client`), each named by its channel id. -/
structure Handle where
  toClient : Nat
  fromClient : Nat
  deriving DecidableEq, Repr

/-- The pure core of `Handle::wait_err`, as a function of the outcome of
`self.from_client.recv()`: the source line is
`self.from_client.recv().unwrap_or_else(Error::from)`. -/
def Handle.wait_err (r : Except RecvError Error) : Error :=
  match r with
  | Except.ok e => e
  | Except.error re => Error.fromRecvError re

/-- `Handle::wait_err` run against the state of the error channel: the
blocking `recv` either completes (with a value or a `RecvError`) and
`wait_err` returns an `Error`, or it blocks (`none`). -/
def Handle.waitErrOn (c : Channel Error) : Option (Error × Channel Error) :=
  (Channel.recvOutcome c).map (fun rc => (Handle.wait_err rc.1, rc.2))

/-- The pure core of `Handle::poll_err`, as a function of the outcome of
`self.from_client.try_recv()`: the source line is
`self.from_client.try_recv().ok()`. -/
def Handle.poll_err (r : Except TryRecvError Error) : Option Error :=
  match r with
  | Except.ok e => some e
  | Except.error _ => none

/-- `Handle::poll_err` run against the state of the error channel. -/
def Handle.pollErrOn (c : Channel Error) : Option Error × Channel Error :=
  let rc := Channel.tryRecv c
  (Handle.poll_err rc.1, rc.2)

/-- The body of `Handle::shutdown`:
`self.to_client.send(Event::Shutdown).ok();` — the send result is
discarded, so the only effect is on the event channel. -/
def Handle.shutdownBody (c : Channel Event) : Channel Event :=
  (Channel.send c Event.Shutdown).2

/-- The body of `impl Drop for Handle`:
`self.to_client.send(Event::Shutdown).ok();` — identical best-effort send,
run whenever a `Handle` is destroyed. -/
def Handle.dropGlue (c : Channel Event) : Channel Event :=
  (Channel.send c Event.Shutdown).2

/-- The full observable effect of one call to the explicit
`Handle::shutdown(self)`: the method body runs its send, then — because
`Handle` implements `Drop` and `shutdown` consumes `self` by value — the
destructor runs at the end of the method, sending `Shutdown` again. -/
def Handle.shutdownCall (c : Channel Event) : Channel Event :=
  Handle.dropGlue (Handle.shutdownBody c)

/-- `MapHandle::new(id, state, sender, alert_rx)` from `state.rs` (not
under `src/`); modelled from the spec as the record of its four arguments:
mapping identifier, shared state-cell reference, event-sender clone (a
clone of a sender is named by the same channel id), and the private
alert-channel receiver. -/
structure MapHandle where
  id : Nat
  state : StateCell
  sender : Nat
  alertRx : Nat
  deriving DecidableEq, Repr

/-- Outcome of one `request` call: a mapping handle, an error value, or an
abnormal termination of the calling thread (a Rust panic from `unwrap`). -/
inductive RequestOutcome
  | ok (h : MapHandle)
  | err (e : Error)
  | panicked
  deriving DecidableEq, Repr

/-- Result of one `request` call: its outcome together with the list of
events it actually delivered to the worker's event channel. -/
structure RequestResult where
  outcome : RequestOutcome
  sent : List Event
  deriving DecidableEq, Repr

/-- `<Handle as Request<Ip, InboundMap<Ip>>>::request` from `handle.rs`,
line by line. `seed` names the fresh allocations, in source order: the
reply channel (`id_tx`/`id_rx`), the alert channel, the state cell (built
as `Arc::new(AtomicState::new(State::Requested))`). `sendOk` is whether
the worker still holds the event receiver (the send succeeds); `reply` is
the outcome of the blocking `id_rx.recv()`; `errRecv` is the outcome of the
blocking `recv` inside `self.wait_err()`. Both `send(...).unwrap()` and
`recv().unwrap()` panic on `Err`. -/
def Handle.requestInbound (h : Handle) (map : InboundMap) (kind : RequestType)
    (seed : Nat) (sendOk : Bool) (reply : Except RecvError (Option Nat))
    (errRecv : Except RecvError Error) : RequestResult :=
  let idChan := seed
  let alertChan := seed + 1
  let state : StateCell := ⟨seed + 2, State.Requested⟩
  let ev := Event.InboundMap map kind state idChan alertChan
  if sendOk then
    match reply with
    | Except.ok (some id) =>
        ⟨RequestOutcome.ok ⟨id, state, h.toClient, alertChan⟩, [ev]⟩
    | Except.ok none =>
        ⟨RequestOutcome.err (Handle.wait_err errRecv), [ev]⟩
    | Except.error _ => ⟨RequestOutcome.panicked, [ev]⟩
  else ⟨RequestOutcome.panicked, []⟩

/-- `<Handle as Request<Ip, OutboundMap<Ip>>>::request` from `handle.rs`,
line by line; identical to the inbound implementation except for the event
variant sent. -/
def Handle.requestOutbound (h : Handle) (map : OutboundMap) (kind : RequestType)
    (seed : Nat) (sendOk : Bool) (reply : Except RecvError (Option Nat))
    (errRecv : Except RecvError Error) : RequestResult :=
  let idChan := seed
  let alertChan := seed + 1
  let state : StateCell := ⟨seed + 2, State.Requested⟩
  let ev := Event.OutboundMap map kind state idChan alertChan
  if sendOk then
    match reply with
    | Except.ok (some id) =>
        ⟨RequestOutcome.ok ⟨id, state, h.toClient, alertChan⟩, [ev]⟩
    | Except.ok none =>
        ⟨RequestOutcome.err (Handle.wait_err errRecv), [ev]⟩
    | Except.error _ => ⟨RequestOutcome.panicked, [ev]⟩
  else ⟨RequestOutcome.panicked, []⟩

/-- The uniform request protocol stated by the spec, abstracted over the
event variant: allocate reply channel, alert channel and `Requested` state
cell, send one event built by `mkEvent`, block for one reply, return a
mapping handle on an identifier and the out-of-band error on absence. -/
def Handle.requestWith (h : Handle) (mkEvent : StateCell → Nat → Nat → Event)
    (seed : Nat) (sendOk : Bool) (reply : Except RecvError (Option Nat))
    (errRecv : Except RecvError Error) : RequestResult :=
  let idChan := seed
  let alertChan := seed + 1
  let state : StateCell := ⟨seed + 2, State.Requested⟩
  let ev := mkEvent state idChan alertChan
  if sendOk then
    match reply with
    | Except.ok (some id) =>
        ⟨RequestOutcome.ok ⟨id, state, h.toClient, alertChan⟩, [ev]⟩
    | Except.ok none =>
        ⟨RequestOutcome.err (Handle.wait_err errRecv), [ev]⟩
    | Except.error _ => ⟨RequestOutcome.panicked, [ev]⟩
  else ⟨RequestOutcome.panicked, []⟩

/-- One consumer operation on the error channel: a blocking `wait_err` or a
non-blocking `poll_err`. -/
inductive ErrOp
  | wait
  | poll
  deriving DecidableEq, Repr

/-- Runs a sequence of error-channel consumer operations. Each operation is
one atomic dequeue attempt (the atomicity of a single `recv`/`try_recv` is
the `mpsc` library's guarantee), so any concurrent interleaving of the
calls is some sequential order of them. Returns the list of posted error
values actually consumed from the queue (in order) and the final channel
state, or `none` when a `wait` blocks with no further outcome. A `wait`
completing on a severed empty channel delivers a synthesized `Channel`
error and consumes nothing. -/
def runErrOps : List ErrOp → Channel Error → Option (List Error × Channel Error)
  | [], c => some ([], c)
  | ErrOp.poll :: ops, c =>
    let rc := Handle.pollErrOn c
    (runErrOps ops rc.2).map (fun dc => (rc.1.toList ++ dc.1, dc.2))
  | ErrOp.wait :: ops, c =>
    match Channel.recvOutcome c with
    | none => none
    | some (Except.ok e, c2) =>
        (runErrOps ops c2).map (fun dc => (e :: dc.1, dc.2))
    | some (Except.error _, c2) => runErrOps ops c2

/-- Two `poll_err` calls against one handle: the first atomic dequeue, then
the second against the resulting channel state. -/
def twoPolls (c : Channel Error) :
    Option Error × Option Error × Channel Error :=
  let r1 := Handle.pollErrOn c
  let r2 := Handle.pollErrOn r1.2
  (r1.1, r2.1, r2.2)

end Pcp
namespace Pcp

/-- Helper: over any completed sequence of error-channel consumer
operations, the error values consumed from the queue, followed by the
values still queued, are exactly the values originally queued: each posted
error is delivered to exactly one call and none is duplicated or lost. -/
theorem runErrOps_consumed (ops : List ErrOp) :
    ∀ (c : Channel Error) (out : List Error × Channel Error),
      runErrOps ops c = some out → out.1 ++ out.2.queue = c.queue := by
  induction ops with
  | nil =>
    intro c out h
    simp only [runErrOps, Option.some.injEq] at h
    subst h
    simp
  | cons op ops ih =>
    intro c out h
    obtain ⟨q, sa, ra⟩ := c
    cases op with
    | poll =>
      cases q with
      | nil =>
        simp only [runErrOps, Handle.pollErrOn, Channel.tryRecv,
          Handle.poll_err, Option.toList, List.nil_append] at h
        obtain ⟨dc, hrun, hout⟩ := Option.map_eq_some'.mp h
        subst hout
        simpa using ih _ _ hrun
      | cons e rest =>
        simp only [runErrOps, Handle.pollErrOn, Channel.tryRecv,
          Handle.poll_err, Option.toList] at h
        obtain ⟨dc, hrun, hout⟩ := Option.map_eq_some'.mp h
        subst hout
        simpa using ih _ _ hrun
    | wait =>
      cases q with
      | nil =>
        cases sa with
        | true => simp [runErrOps, Channel.recvOutcome] at h
        | false =>
          simp only [runErrOps, Channel.recvOutcome, Bool.false_eq_true,
            if_false] at h
          simpa using ih _ _ h
      | cons e rest =>
        simp only [runErrOps, Channel.recvOutcome] at h
        obtain ⟨dc, hrun, hout⟩ := Option.map_eq_some'.mp h
        subst hout
        simpa using ih _ _ hrun

end Pcp
namespace Pcp

/-- C1 counterexample: at a concrete input, when the event channel to the
worker is dropped (the send fails) or the in-flight reply channel is
dropped (the blocking reply `recv` fails), `request` terminates the calling
thread abnormally (`unwrap` panics); it does not return `Err` with a
`Channel` error, refuting the claim as stated. -/
theorem c1_counterexample :
    (Handle.requestInbound ⟨0, 1⟩ ⟨0⟩ RequestType.Once 2 false (Except.ok none)
        (Except.error RecvError.mk)).outcome = RequestOutcome.panicked
    ∧ (Handle.requestInbound ⟨0, 1⟩ ⟨0⟩ RequestType.Once 2 true
        (Except.error RecvError.mk) (Except.error RecvError.mk)).outcome
      = RequestOutcome.panicked
    ∧ RequestOutcome.panicked ≠ RequestOutcome.err (Error.Channel RecvError.mk) := by
  refine ⟨rfl, rfl, ?_⟩
  decide

/-- C1 (amended): if the event channel to the worker or the in-flight reply
channel is dropped while `request` is sending or blocked waiting for the
reply, `request` terminates the calling thread abnormally (it panics on
`unwrap`) instead of returning `Err` with a `Channel` error; this holds for
both the inbound and the outbound implementation. -/
theorem c1_request_panics_on_closed_channels (h : Handle) (mi : InboundMap)
    (mo : OutboundMap) (k : RequestType) (seed : Nat)
    (reply : Except RecvError (Option Nat)) (re : RecvError)
    (errRecv : Except RecvError Error) :
    (Handle.requestInbound h mi k seed false reply errRecv).outcome
      = RequestOutcome.panicked
    ∧ (Handle.requestInbound h mi k seed true (Except.error re) errRecv).outcome
      = RequestOutcome.panicked
    ∧ (Handle.requestOutbound h mo k seed false reply errRecv).outcome
      = RequestOutcome.panicked
    ∧ (Handle.requestOutbound h mo k seed true (Except.error re) errRecv).outcome
      = RequestOutcome.panicked :=
  ⟨rfl, rfl, rfl, rfl⟩

/-- C2 counterexample: the derivation of `Channel` errors is not total over
the handle-side channel operations. At a concrete input, `poll_err`
observing a closed (disconnected) error channel yields `none` — the failure
is silently dropped, not mapped to a `Channel` error — and `request`
observing a closed reply channel aborts abnormally instead of yielding a
`Channel` error. -/
theorem c2_counterexample :
    (Handle.pollErrOn ⟨[], false, true⟩).1 = none
    ∧ (Handle.requestInbound ⟨0, 1⟩ ⟨1⟩ RequestType.KeepAlive 5 true
        (Except.error RecvError.mk) (Except.ok (Error.Parsing ⟨0⟩))).outcome
      = RequestOutcome.panicked
    ∧ (none : Option Error) ≠ some (Error.Channel RecvError.mk) := by
  refine ⟨rfl, rfl, ?_⟩
  decide

/-- C2 (amended): only `wait_err` maps a closed-channel receive totally to
a `Channel` error; `poll_err` maps a closed-channel observation
(`Disconnected`) to `None`, dropping the failure information, and `request`
aborts the calling thread abnormally when it observes a closed event or
reply channel. -/
theorem c2_channel_error_derivation (re : RecvError) (h : Handle)
    (m : InboundMap) (k : RequestType) (seed : Nat)
    (reply : Except RecvError (Option Nat)) (errRecv : Except RecvError Error) :
    Handle.wait_err (Except.error re) = Error.Channel re
    ∧ Handle.poll_err (Except.error TryRecvError.Disconnected) = none
    ∧ (Handle.requestInbound h m k seed false reply errRecv).outcome
      = RequestOutcome.panicked
    ∧ (Handle.requestInbound h m k seed true (Except.error re) errRecv).outcome
      = RequestOutcome.panicked :=
  ⟨rfl, rfl, rfl, rfl⟩

/-- C3: `wait_err` returns the pending (or next posted) error when one is
at the head of the error channel, and when the worker's side of the error
channel is dropped with nothing queued it completes (it does not block
forever) with a synthesized `Channel` error. -/
theorem c3_wait_err_total :
    (∀ (e : Error) (rest : List Error) (sa ra : Bool),
      Handle.waitErrOn ⟨e :: rest, sa, ra⟩ = some (e, ⟨rest, sa, ra⟩))
    ∧ (∀ ra : Bool,
      Handle.waitErrOn ⟨[], false, ra⟩
        = some (Error.Channel RecvError.mk, ⟨[], false, ra⟩)) := by
  constructor <;> intros <;> rfl

/-- C4: for both the inbound and the outbound implementation, when the
reply channel delivers the absence value (`None`), `request` returns
`Err(e)` where `e` is exactly the value produced by blocking on the shared
error channel via `wait_err` — the error is fetched out-of-band, not
carried in the reply. -/
theorem c4_absence_fetches_out_of_band (h : Handle) (mi : InboundMap)
    (mo : OutboundMap) (k : RequestType) (seed : Nat)
    (errRecv : Except RecvError Error) :
    (Handle.requestInbound h mi k seed true (Except.ok none) errRecv).outcome
      = RequestOutcome.err (Handle.wait_err errRecv)
    ∧ (Handle.requestOutbound h mo k seed true (Except.ok none) errRecv).outcome
      = RequestOutcome.err (Handle.wait_err errRecv) :=
  ⟨rfl, rfl⟩

/-- C5: a successful `request` allocates a fresh reply channel, alert
channel and state cell initialized to `Requested` (all three allocations
pairwise distinct), sends exactly one event carrying them to the worker,
and when the reply carries identifier `id` returns `Ok` of a mapping handle
wrapping exactly that `id`, the same state cell sent in the event (still
reading `Requested`), a clone of the event sender, and the receiver of the
fresh alert channel. -/
theorem c5_request_success_shape (h : Handle) (m : InboundMap)
    (k : RequestType) (seed id : Nat) (errRecv : Except RecvError Error) :
    Handle.requestInbound h m k seed true (Except.ok (some id)) errRecv
      = ⟨RequestOutcome.ok
            ⟨id, ⟨seed + 2, State.Requested⟩, h.toClient, seed + 1⟩,
         [Event.InboundMap m k ⟨seed + 2, State.Requested⟩ seed (seed + 1)]⟩
    ∧ seed ≠ seed + 1 ∧ seed ≠ seed + 2 ∧ seed + 1 ≠ seed + 2 := by
  refine ⟨rfl, ?_, ?_, ?_⟩ <;> omega

/-- C6: the body of `shutdown` best-effort sends exactly the `Shutdown`
event — when the worker's receiver is alive exactly one `Shutdown` is
appended to the event channel, and when it is gone the failed send is
ignored (the function still returns normally, with the channel unchanged);
the `Drop` destructor performs the identical best-effort send, so a handle
dropped without an explicit `shutdown` call still sends `Shutdown`. -/
theorem c6_shutdown_best_effort (q : List Event) (sa : Bool) :
    Handle.shutdownBody ⟨q, sa, true⟩ = ⟨q ++ [Event.Shutdown], sa, true⟩
    ∧ Handle.shutdownBody ⟨q, sa, false⟩ = ⟨q, sa, false⟩
    ∧ Handle.dropGlue ⟨q, sa, true⟩ = ⟨q ++ [Event.Shutdown], sa, true⟩
    ∧ Handle.dropGlue ⟨q, sa, false⟩ = ⟨q, sa, false⟩ := by
  refine ⟨?_, ?_, ?_, ?_⟩ <;>
    simp [Handle.shutdownBody, Handle.dropGlue, Channel.send]

/-- C7: one explicit `shutdown(self)` call delivers the `Shutdown` event to
the worker's event channel twice — once from the method body and once more
from `Drop` when the consumed handle is destroyed at the end of the method. -/
theorem c7_explicit_shutdown_sends_twice (q : List Event) (sa : Bool) :
    Handle.shutdownCall ⟨q, sa, true⟩
      = ⟨q ++ [Event.Shutdown, Event.Shutdown], sa, true⟩ := by
  simp [Handle.shutdownCall, Handle.shutdownBody, Handle.dropGlue,
    Channel.send]

/-- C8: `poll_err` never blocks (it is a total function of the channel
state): it returns `Some` of the first pending error when one has been
received and `None` when nothing is pending (also when the channel is
closed), and its only effect is consuming that one value — the rest of the
queue and the channel's liveness flags are unchanged. -/
theorem c8_poll_err_nonblocking (c : Channel Error) :
    (Handle.pollErrOn c).1 = c.queue.head?
    ∧ (Handle.pollErrOn c).2.queue = c.queue.tail
    ∧ (Handle.pollErrOn c).2.senderAlive = c.senderAlive
    ∧ (Handle.pollErrOn c).2.receiverAlive = c.receiverAlive := by
  obtain ⟨q, sa, ra⟩ := c
  cases q <;> simp [Handle.pollErrOn, Channel.tryRecv, Handle.poll_err]

/-- C9: the inbound and outbound implementations of `request` are uniform:
on every input, each equals the single generic protocol `requestWith`
applied to its own event constructor — the two functions are equal up to
the event variant tag. -/
theorem c9_request_uniform (h : Handle) (mi : InboundMap) (mo : OutboundMap)
    (k : RequestType) (seed : Nat) (sendOk : Bool)
    (reply : Except RecvError (Option Nat))
    (errRecv : Except RecvError Error) :
    Handle.requestInbound h mi k seed sendOk reply errRecv
      = Handle.requestWith h (Event.InboundMap mi k) seed sendOk reply errRecv
    ∧ Handle.requestOutbound h mo k seed sendOk reply errRecv
      = Handle.requestWith h (Event.OutboundMap mo k) seed sendOk reply errRecv :=
  ⟨rfl, rfl⟩

/-- C10: error values are consumed exactly once. Over any completed
interleaving of `wait_err`/`poll_err` calls (each an atomic dequeue, so any
concurrent schedule is some sequential order), the errors delivered from
the queue followed by those still queued are exactly the errors posted —
none is delivered to two callers and none is lost; in particular, two
`poll_err` calls against one pending error yield exactly one `Some` of that
error and one `None`. -/
theorem c10_exactly_once :
    (∀ (ops : List ErrOp) (c : Channel Error)
        (out : List Error × Channel Error),
      runErrOps ops c = some out → out.1 ++ out.2.queue = c.queue)
    ∧ (∀ (e : Error) (sa ra : Bool),
      twoPolls ⟨[e], sa, ra⟩ = (some e, none, ⟨[], sa, ra⟩)) :=
  ⟨fun ops c out h => runErrOps_consumed ops c out h,
   fun _ _ _ => rfl⟩

/-- C10 witness: a concrete completed run — a `poll_err` then a `wait_err`
against one posted `Parsing` error on a severed channel — consumes exactly
that error, as `c10_exactly_once` states. -/
theorem c10_exactly_once_witness :
    runErrOps [ErrOp.poll, ErrOp.wait] ⟨[Error.Parsing ⟨7⟩], false, true⟩
        = some ([Error.Parsing ⟨7⟩], ⟨[], false, true⟩)
    ∧ [Error.Parsing ⟨7⟩] ++ ([] : List Error) = [Error.Parsing ⟨7⟩] :=
  ⟨rfl,
   c10_exactly_once.1 [ErrOp.poll, ErrOp.wait]
     ⟨[Error.Parsing ⟨7⟩], false, true⟩
     ([Error.Parsing ⟨7⟩], ⟨[], false, true⟩) rfl⟩

end Pcp
